import Mathlib

/-!
Shallow embedding of the byteplug toolkit validators:
  * byteplug/validator/specs.py     (schema validator)
  * byteplug/validator/document.py  (document validator / converter)
  * byteplug/document/types.py      (builder API)

Python values decoded from JSON (plus the adjusted values the converter
produces, which additionally contain tuples) are modelled by `PyValue`.
Mappings are association lists with string keys in insertion order, as
produced by the `json` module.  The mutable `errors`/`warnings` lists the
Python code threads through the recursion are append-only and never read
during a walk, so each embedded function returns the list of diagnostics it
appends (the caller concatenates); a Python exception is modelled by the
`exc` constructor of `PyResult`, which also carries the diagnostics appended
before the exception was raised.
-/

inductive PyValue where
  | null
  | bool (b : Bool)
  | int (n : Int)
  | float (q : Rat)
  | str (s : String)
  | list (xs : List PyValue)
  | tuple (xs : List PyValue)
  | dict (kvs : List (String × PyValue))

/-- A diagnostic object appended to the `errors`/`warnings` lists:
`ValidationError(path, message)`, `ValueError(path, message)` or
`ValidationWarning(path, message)`. -/
inductive Diag where
  | validationError (path message : String)
  | valueError (path message : String)
  | validationWarning (path message : String)
deriving DecidableEq, Repr

/-- A Python exception terminating the walk: an interpreter error
(`TypeError`, `AttributeError`, `KeyError`), an explicitly `raise`d
diagnostic, or exhaustion of the recursion fuel of the model. -/
inductive PyExc where
  | typeError (msg : String)
  | attributeError (msg : String)
  | keyError (msg : String)
  | raised (d : Diag)
  | outOfFuel
deriving DecidableEq, Repr

/-- Outcome of running one embedded Python function: the returned value
together with the diagnostics appended to `errors` and `warnings` during the
call, or an exception (with the diagnostics appended before it was raised). -/
inductive PyResult (α : Type) where
  | ok (val : α) (errors warnings : List Diag)
  | exc (e : PyExc) (errors warnings : List Diag)

/-- Sequencing of two embedded calls against the same mutable
`errors`/`warnings` lists: diagnostics accumulate in order, an exception
short-circuits. -/
def PyResult.andThen {α β : Type} (r : PyResult α) (f : α → PyResult β) : PyResult β :=
  match r with
  | .ok a e w =>
    match f a with
    | .ok b e2 w2 => .ok b (e ++ e2) (w ++ w2)
    | .exc x e2 w2 => .exc x (e ++ e2) (w ++ w2)
  | .exc x e w => .exc x e w

/-- First-match lookup in an association list (Python dict access; the dicts
built by the `json` module and by the sources have unique keys). -/
def pyLookup (kvs : List (String × PyValue)) (k : String) : Option PyValue :=
  match kvs with
  | [] => Option.none
  | (k', v) :: rest => if k' = k then some v else pyLookup rest k

/-- Python `d.get(key)`: the stored value, or `None` when absent. -/
def dictGet (kvs : List (String × PyValue)) (k : String) : PyValue :=
  match pyLookup kvs k with
  | some v => v
  | Option.none => .null

/-- Python truthiness of a value (`if value:`). -/
def truthy : PyValue → Bool
  | .null => false
  | .bool b => b
  | .int n => n ≠ 0
  | .float q => q ≠ 0
  | .str s => s ≠ ""
  | .list xs => ¬ xs.isEmpty
  | .tuple xs => ¬ xs.isEmpty
  | .dict kvs => ¬ kvs.isEmpty

/-- Python `type(x) is bool`. -/
def PyValue.isBool : PyValue → Bool
  | .bool _ => true
  | _ => false

/-- Python `type(x) is float`. -/
def PyValue.isFloat : PyValue → Bool
  | .float _ => true
  | _ => false

/-- Python `type(x) in (int, float)` (note `bool` is excluded because the
sources compare with `type(...)`, which does not see subclasses). -/
def PyValue.isNumber : PyValue → Bool
  | .int _ => true
  | .float _ => true
  | _ => false

/-- Numeric content of a value for Python's cross-type numeric comparisons
(`bool` counts as a number there: `True == 1`). -/
def numVal : PyValue → Option Rat
  | .bool b => some (if b then 1 else 0)
  | .int n => some (n : Rat)
  | .float q => some q
  | _ => Option.none

/-- Python `a < b` for the values the validators compare: numbers compare
numerically, strings lexicographically, anything else raises `TypeError`.
(The container/container comparisons Python would additionally accept never
arise from the schemas and documents considered in the theorems below.) -/
def pyLt (a b : PyValue) : Except PyExc Bool :=
  match numVal a, numVal b with
  | some x, some y => .ok (decide (x < y))
  | _, _ =>
    match a, b with
    | .str s, .str t => .ok (decide (s < t))
    | _, _ => .error (.typeError "'<' not supported between instances")

/-- Python `a <= b`, same conventions as `pyLt`. -/
def pyLe (a b : PyValue) : Except PyExc Bool :=
  match numVal a, numVal b with
  | some x, some y => .ok (decide (x ≤ y))
  | _, _ =>
    match a, b with
    | .str s, .str t => .ok (decide (s ≤ t))
    | _, _ => .error (.typeError "'<=' not supported between instances")

def isLowerAZ (c : Char) : Bool := decide ('a' ≤ c) && decide (c ≤ 'z')

/-- Split a character list on the dash character; `splitDash cs` always has
one more group than `cs` has dashes. -/
def splitDash (cs : List Char) : List (List Char) :=
  match cs with
  | [] => [[]]
  | c :: rest =>
    let r := splitDash rest
    if c = '-' then [] :: r
    else
      match r with
      | [] => [[c]]
      | g :: gs => (c :: g) :: gs

/-- `re.match(r"^[a-z]+(-[a-z]+)*$", s)` as a boolean: one or more groups of
lowercase letters separated by single dashes. -/
def identifier_match (s : String) : Bool :=
  (splitDash s.data).all (fun p => !p.isEmpty && p.all isLowerAZ)

/-- `re.match(r"^[a-z]+(-[a-z]+)*$", v)`: raises `TypeError` when the
argument is not a string. -/
def re_match_identifier (v : PyValue) : Except PyExc Bool :=
  match v with
  | .str s => .ok (identifier_match s)
  | _ => .error (.typeError "expected string or bytes-like object")

/-- `re.match(pattern, s)` for the metacharacter-free patterns exercised
below: a literal pattern matches at the start of the string, i.e. exactly
when it is a prefix of `s` (re.match anchors at the beginning only). -/
def re_match_literal (pat s : String) : Bool := pat.data.isPrefixOf s.data

/-- Python `int(x)` on a number: the identity on ints, truncation toward
zero on floats. -/
def py_int : PyValue → PyValue
  | .int n => .int n
  | .float q => .int (Int.tdiv q.num (q.den : Int))
  | v => v

/-- Python `x is None`. -/
def PyValue.isNull : PyValue → Bool
  | .null => true
  | _ => false

/-!
## Embedding of byteplug/validator/specs.py

Each `validate_*` function below mirrors the function of the same name.
The kind validators of compound kinds take the one-level-down schema
validator as the function argument `validateF` (in the source this is the
mutual recursion through `validate_block`); `validate_block` itself carries
the recursion fuel.
-/

/-- `validate_minimum_or_maximum_property(name, path, value, errors)`:
returns the `(exclusive, value)` pair (or `none` for Python `None`) together
with the errors appended.  Note the source resets `exclusive` to `False`
whenever it is absent, falsy, or a genuine bool, and keeps the raw value
only when it is truthy and not a bool (the error branch). -/
def validate_minimum_or_maximum_property (name path : String) (value : PyValue) :
    Option (PyValue × PyValue) × List Diag :=
  match value with
  | .int _ => (some (.bool false, value), [])
  | .float _ => (some (.bool false, value), [])
  | .dict kvs =>
    match ((kvs.map Prod.fst).filter (fun k => ¬ (k = "exclusive" ∨ k = "value"))).head? with
    | some k =>
      (Option.none,
       [.validationError (path ++ "." ++ name) ("'" ++ k ++ "' property is unexpected")])
    | Option.none =>
      let exclusive := dictGet kvs "exclusive"
      let exclErrs :=
        if truthy exclusive ∧ ¬ exclusive.isBool then
          [Diag.validationError (path ++ "." ++ name ++ ".exclusive") "value must be a bool"]
        else []
      let excl := if truthy exclusive ∧ ¬ exclusive.isBool then exclusive else .bool false
      let value_ := dictGet kvs "value"
      let valueErrs :=
        if value_.isNull then
          [Diag.validationError (path ++ "." ++ name) "'value' property is missing"]
        else if ¬ value_.isNumber then
          [Diag.validationError (path ++ "." ++ name ++ ".value") "value must be a number"]
        else []
      (some (excl, value_), exclErrs ++ valueErrs)
  | _ =>
    (Option.none,
     [.validationError (path ++ "." ++ name) "value must be either a number or a dict"])

/-- `validate_length_property(path, value, errors, warnings)`.  The
comparisons `minimum < 0`, `maximum < 0` and `minimum > maximum` run on the
raw values and can raise `TypeError`. -/
def validate_length_property (path0 : String) (value : PyValue) : PyResult Unit :=
  let path := path0 ++ ".length"
  match value with
  | .int n =>
    .ok () (if n < 0 then [.validationError path "must be greater or equal to zero"] else []) []
  | .float q =>
    .ok () (if q < 0 then [.validationError path "must be greater or equal to zero"] else [])
      [.validationWarning path "should be an integer (got float)"]
  | .dict kvs =>
    match ((kvs.map Prod.fst).filter (fun k => ¬ (k = "minimum" ∨ k = "maximum"))).head? with
    | some k => .ok () [.validationError path ("'" ++ k ++ "' property is unexpected")] []
    | Option.none =>
      let minimum := dictGet kvs "minimum"
      let maximum := dictGet kvs "maximum"
      let checkBound (name : String) (bound : PyValue) : PyResult Unit :=
        if truthy bound then
          let e1 :=
            if ¬ bound.isNumber then
              [Diag.validationError (path ++ "." ++ name) "value must be a number"]
            else []
          let w1 :=
            if bound.isFloat then
              [Diag.validationWarning path "should be an integer (got float)"]
            else []
          match pyLt bound (.int 0) with
          | .error x => .exc x e1 w1
          | .ok neg =>
            .ok ()
              (e1 ++ if neg then
                [Diag.validationError (path ++ "." ++ name) "must be greater or equal to zero"]
               else [])
              w1
        else .ok () [] []
      (checkBound "minimum" minimum).andThen fun _ =>
      (checkBound "maximum" maximum).andThen fun _ =>
      if ¬ minimum.isNull ∧ ¬ maximum.isNull then
        match pyLt maximum minimum with
        | .error x => .exc x [] []
        | .ok gt =>
          .ok () (if gt then [.validationError path "minimum must be lower than maximum"] else []) []
      else .ok () [] []
  | _ => .ok () [.validationError path "value must be either a number or a dict"] []

/-- `validate_flag_type(path, block, errors, warnings)`: nothing to do. -/
def validate_flag_type (_path : String) (_kvs : List (String × PyValue)) : PyResult Unit :=
  .ok () [] []

/-- One bound of `validate_integer_type`/`validate_decimal_type`: calls
`validate_minimum_or_maximum_property` when the property is present and,
for the integer kind (`warnFloat := true`), warns when the resolved value is
a float. -/
def integer_bound (warnFloat : Bool) (name path : String) (kvs : List (String × PyValue)) :
    Option (PyValue × PyValue) × List Diag × List Diag :=
  match pyLookup kvs name with
  | Option.none => (Option.none, [], [])
  | some b =>
    match validate_minimum_or_maximum_property name path b with
    | (m, errs) =>
      let warns :=
        match m with
        | some (_, v) =>
          if warnFloat ∧ v.isFloat then
            [Diag.validationWarning (path ++ "." ++ name) "should be an integer (got float)"]
          else []
        | Option.none => []
      (m, errs, warns)

/-- Comparison of the two resolved bounds shared by
`validate_integer_type` and `validate_decimal_type`:
`if minimum and maximum: if maximum[1] < minimum[1]: ...` (a tuple is always
truthy, so this fires whenever both helpers returned a pair). -/
def integer_bounds_check (path : String)
    (minimum maximum : Option (PyValue × PyValue)) : PyResult Unit :=
  match minimum, maximum with
  | some (_, minv), some (_, maxv) =>
    match pyLt maxv minv with
    | .error x => .exc x [] []
    | .ok lt =>
      .ok () (if lt then [.validationError path "minimum must be lower than maximum"] else []) []
  | _, _ => .ok () [] []

/-- `validate_integer_type(path, block, errors, warnings)`. -/
def validate_integer_type (path : String) (kvs : List (String × PyValue)) : PyResult Unit :=
  match integer_bound true "minimum" path kvs with
  | (minimum, e1, w1) =>
    match integer_bound true "maximum" path kvs with
    | (maximum, e2, w2) =>
      match integer_bounds_check path minimum maximum with
      | .ok () e3 w3 => .ok () (e1 ++ e2 ++ e3) (w1 ++ w2 ++ w3)
      | .exc x e3 w3 => .exc x (e1 ++ e2 ++ e3) (w1 ++ w2 ++ w3)

/-- `validate_decimal_type(path, block, errors, warnings)`: as the integer
kind but without the float warnings. -/
def validate_decimal_type (path : String) (kvs : List (String × PyValue)) : PyResult Unit :=
  match integer_bound false "minimum" path kvs with
  | (minimum, e1, w1) =>
    match integer_bound false "maximum" path kvs with
    | (maximum, e2, w2) =>
      match integer_bounds_check path minimum maximum with
      | .ok () e3 w3 => .ok () (e1 ++ e2 ++ e3) (w1 ++ w2 ++ w3)
      | .exc x e3 w3 => .exc x (e1 ++ e2 ++ e3) (w1 ++ w2 ++ w3)

/-- `validate_string_type(path, block, errors, warnings)`. -/
def validate_string_type (path : String) (kvs : List (String × PyValue)) : PyResult Unit :=
  (match pyLookup kvs "length" with
   | some len => validate_length_property path len
   | Option.none => .ok () [] []).andThen fun _ =>
  (let pat := dictGet kvs "pattern"
   if pat.isNull then .ok () [] []
   else
     match pat with
     | .str _ => .ok () [] []
     | _ => .ok () [.validationError (path ++ ".pattern") "value must be a string"] [])

/-- The loop of `validate_enum_type`: checks each element against the
identifier pattern (raising `TypeError` on non-strings, as `re.match`
does), then against the `processed_values` list for duplicates. -/
def validate_enum_values (path : String) (values : List PyValue)
    (processed : List String) : PyResult Unit :=
  match values with
  | [] => .ok () [] []
  | v :: rest =>
    match re_match_identifier v with
    | .error x => .exc x [] []
    | .ok matched =>
      match v with
      | .str s =>
        if ¬ matched then
          match validate_enum_values path rest processed with
          | .ok () e w =>
            .ok () (Diag.validationError (path ++ ".values")
              ("'" ++ s ++ "' is an incorrect value") :: e) w
          | .exc x e w =>
            .exc x (Diag.validationError (path ++ ".values")
              ("'" ++ s ++ "' is an incorrect value") :: e) w
        else if s ∈ processed then
          match validate_enum_values path rest processed with
          | .ok () e w =>
            .ok () (Diag.validationError (path ++ ".values")
              ("'" ++ s ++ "' value is duplicated") :: e) w
          | .exc x e w =>
            .exc x (Diag.validationError (path ++ ".values")
              ("'" ++ s ++ "' value is duplicated") :: e) w
        else validate_enum_values path rest (processed ++ [s])
      | _ => .exc (.typeError "expected string or bytes-like object") [] []

/-- `validate_enum_type(path, block, errors, warnings)`. -/
def validate_enum_type (path : String) (kvs : List (String × PyValue)) : PyResult Unit :=
  let values := dictGet kvs "values"
  if values.isNull then .ok () [.validationError path "'values' property is missing"] []
  else
    match values with
    | .list vs =>
      if vs.isEmpty then
        .ok () [.validationError (path ++ ".values") "must contain at least one value"] []
      else validate_enum_values path vs []
    | _ => .ok () [.validationError (path ++ ".values") "value must be a list"] []

/-- `validate_list_type(path, block, errors, warnings)`: note the source
treats any falsy `value` property (absent, `None`, `0`, `{}`, ...) as
missing. -/
def validate_list_type (validateF : String → PyValue → PyResult Unit)
    (path : String) (kvs : List (String × PyValue)) : PyResult Unit :=
  let value := dictGet kvs "value"
  if ¬ truthy value then .ok () [.validationError path "'value' property is missing"] []
  else
    (validateF (path ++ ".[]") value).andThen fun _ =>
    match pyLookup kvs "length" with
    | some len => validate_length_property path len
    | Option.none => .ok () [] []

/-- The loop of `validate_tuple_type`: validates each element at path
`.(<index>)`. -/
def run_tuple_specs (validateF : String → PyValue → PyResult Unit)
    (path : String) (idx : Nat) (values : List PyValue) : PyResult Unit :=
  match values with
  | [] => .ok () [] []
  | v :: rest =>
    (validateF (path ++ ".(" ++ toString idx ++ ")") v).andThen fun _ =>
      run_tuple_specs validateF path (idx + 1) rest

/-- `validate_tuple_type(path, block, errors, warnings)`. -/
def validate_tuple_type (validateF : String → PyValue → PyResult Unit)
    (path : String) (kvs : List (String × PyValue)) : PyResult Unit :=
  let values := dictGet kvs "values"
  if values.isNull then .ok () [.validationError path "'values' property is missing"] []
  else
    match values with
    | .list vs =>
      if vs.isEmpty then
        .ok () [.validationError (path ++ ".values") "must contain at least one value"] []
      else run_tuple_specs validateF path 0 vs
    | _ => .ok () [.validationError (path ++ ".values") "value must be a list"] []

/-- The loop of `validate_map_type`: checks each key against the identifier
pattern (skipping the field on failure) and validates each field value at
path `.<key>`.  Keys are strings by construction of `PyValue.dict`. -/
def run_map_specfields (validateF : String → PyValue → PyResult Unit)
    (path : String) (fields : List (String × PyValue)) : PyResult Unit :=
  match fields with
  | [] => .ok () [] []
  | (key, value) :: rest =>
    if ¬ identifier_match key then
      match run_map_specfields validateF path rest with
      | .ok () e w =>
        .ok () (Diag.validationError (path ++ ".fields")
          ("'" ++ key ++ "' is an incorrect key name") :: e) w
      | .exc x e w =>
        .exc x (Diag.validationError (path ++ ".fields")
          ("'" ++ key ++ "' is an incorrect key name") :: e) w
    else
      (validateF (path ++ "." ++ key) value).andThen fun _ =>
        run_map_specfields validateF path rest

/-- `validate_map_type(path, block, errors, warnings)`. -/
def validate_map_type (validateF : String → PyValue → PyResult Unit)
    (path : String) (kvs : List (String × PyValue)) : PyResult Unit :=
  let fields := dictGet kvs "fields"
  if fields.isNull then .ok () [.validationError path "'fields' property is missing"] []
  else
    match fields with
    | .dict fkvs =>
      if fkvs.isEmpty then
        .ok () [.validationError (path ++ ".fields") "must contain at least one field"] []
      else run_map_specfields validateF path fkvs
    | _ => .ok () [.validationError (path ++ ".fields") "value must be a dict"] []

/-- The `validators` table of specs.py, restricted to its second component:
the whitelist of recognized constraint keys per kind (`none` for an
unrecognized kind). -/
def kinds_whitelist : String → Option (List String)
  | "flag" => some []
  | "integer" => some ["minimum", "maximum"]
  | "decimal" => some ["minimum", "maximum"]
  | "string" => some ["length", "pattern"]
  | "enum" => some ["values"]
  | "list" => some ["value", "length"]
  | "tuple" => some ["values"]
  | "map" => some ["fields"]
  | _ => Option.none

/-- Step 4 of `validate_block`: at most one "unexpected property" error, for
the first key outside the kind's whitelist, `type` and `option`. -/
def unexpected_property_errors (path : String) (kvs : List (String × PyValue))
    (wl : List String) : List Diag :=
  match ((kvs.map Prod.fst).filter
      (fun k => ¬ (k ∈ wl ∨ k = "type" ∨ k = "option"))).head? with
  | some k => [.validationError path ("'" ++ k ++ "' property is unexpected")]
  | Option.none => []

/-- Step 6 of `validate_block`: `'option' in block and type(block['option'])
is not bool`. -/
def option_property_errors (path : String) (kvs : List (String × PyValue)) : List Diag :=
  match pyLookup kvs "option" with
  | some v => if v.isBool then [] else [.validationError (path ++ ".option") "value must be a bool"]
  | Option.none => []

/-- Dispatch on the `validators` table (first component): the kind-specific
checker.  `validate_block` only dispatches on recognized kinds, so the
catch-all arm is unreachable from it. -/
def validate_kind (validateF : String → PyValue → PyResult Unit)
    (tname path : String) (kvs : List (String × PyValue)) : PyResult Unit :=
  match tname with
  | "flag" => validate_flag_type path kvs
  | "integer" => validate_integer_type path kvs
  | "decimal" => validate_decimal_type path kvs
  | "string" => validate_string_type path kvs
  | "enum" => validate_enum_type path kvs
  | "list" => validate_list_type validateF path kvs
  | "tuple" => validate_tuple_type validateF path kvs
  | "map" => validate_map_type validateF path kvs
  | _ => .exc (.keyError tname) [] []

/-- `validate_block(path, block, errors, warnings)`: the generic per-node
schema validation, with explicit recursion fuel standing for Python's call
stack. -/
def validate_block : Nat → String → PyValue → PyResult Unit
  | 0, _, _ => .exc .outOfFuel [] []
  | fuel + 1, path, block =>
    match block with
    | .dict kvs =>
      let type_ := dictGet kvs "type"
      if ¬ truthy type_ then .ok () [.validationError path "'type' property is missing"] []
      else
        match type_ with
        | .str tname =>
          match kinds_whitelist tname with
          | Option.none => .ok () [.validationError path "value of 'type' is incorrect"] []
          | some wl =>
            let extraErrs := unexpected_property_errors path kvs wl
            match validate_kind (fun p b => validate_block fuel p b) tname path kvs with
            | .ok () ke kw => .ok () (extraErrs ++ ke ++ option_property_errors path kvs) kw
            | .exc x ke kw => .exc x (extraErrs ++ ke) kw
        | _ => .ok () [.validationError path "value of 'type' is incorrect"] []
    | _ => .ok () [.validationError path "value must be a dict"] []

/-- `validate_root_block(block, errors, warnings)`. -/
def validate_root_block (fuel : Nat) (block : PyValue) : PyResult Unit :=
  match block with
  | .dict _ => validate_block fuel "root" block
  | _ => .ok () [.validationError "root" "root value must be a dict"] []

/-- `validate_specs(specs, errors, warnings)`: `lazy := true` models a
caller-supplied empty `errors` list, `lazy := false` the default fail-fast
mode, which raises the first recorded error after the walk. -/
def validate_specs (fuel : Nat) (lazy : Bool) (specs : PyValue) : PyResult Unit :=
  match validate_root_block fuel specs with
  | .ok () [] w => .ok () [] w
  | .ok () (d :: ds) w => if lazy then .ok () (d :: ds) w else .exc (.raised d) (d :: ds) w
  | .exc x e w => .exc x e w

/-!
## Embedding of byteplug/validator/document.py

`document_to_object` parses the document text with `json.loads` before the
walk; the embedding starts from the already decoded value (a decode failure
is a distinct, always-fatal error class outside the walk).  As in specs.py,
the compound-kind processors receive the one-level-down converter as
`adjustF`, and `adjust_node` carries the recursion fuel.
-/

/-- `process_flag_node(path, node, specs, errors, warnings)`. -/
def process_flag_node (path : String) (node : PyValue) : PyResult PyValue :=
  match node with
  | .bool _ => .ok node [] []
  | _ => .ok .null [.validationError path "was expecting a JSON boolean"] []

/-- Modelled from the spec: `read_minimum_value` lives in
byteplug/validator/utils.py, which is not among the sources.  Per §3 a bound
is "either a bare number (inclusive) or a pair `(exclusive: bool, value:
number)`", and §4.4 applies "the resolved exclusivity"; reading the
`minimum` property of a certified schema therefore yields `none` when the
property is absent, `(exclusive := false, value)` for a bare number, and the
mapping's `exclusive` entry (default false) paired with its `value` entry
otherwise. -/
def read_minimum_value (kvs : List (String × PyValue)) : Option (Bool × PyValue) :=
  match pyLookup kvs "minimum" with
  | Option.none => Option.none
  | some (.dict bkvs) =>
    some (match pyLookup bkvs "exclusive" with
          | some (.bool b) => b
          | _ => false,
          dictGet bkvs "value")
  | some v => some (false, v)

/-- Modelled from the spec: `read_maximum_value` (utils.py, not among the
sources), symmetric to `read_minimum_value` for the `maximum` property. -/
def read_maximum_value (kvs : List (String × PyValue)) : Option (Bool × PyValue) :=
  match pyLookup kvs "maximum" with
  | Option.none => Option.none
  | some (.dict bkvs) =>
    some (match pyLookup bkvs "exclusive" with
          | some (.bool b) => b
          | _ => false,
          dictGet bkvs "value")
  | some v => some (false, v)

/-- One bound check of `process_integer_node`: strict comparison when
exclusive, non-strict otherwise; on violation the error is recorded and the
function returns `None` early (`cont := false`). -/
def integer_bound_check (path : String) (node : PyValue)
    (bound : Option (Bool × PyValue)) (strictMsg looseMsg : String) :
    (strict : Bool → PyValue → PyValue → Except PyExc Bool) → PyResult Bool :=
  fun cmp =>
    match bound with
    | Option.none => .ok true [] []
    | some (isExclusive, value) =>
      match cmp isExclusive node value with
      | .error x => .exc x [] []
      | .ok sat =>
        if sat then .ok true [] []
        else if isExclusive then .ok false [.validationError path strictMsg] []
        else .ok false [.validationError path looseMsg] []

/-- `process_integer_node(path, node, specs, errors, warnings)`. -/
def process_integer_node (path : String) (node : PyValue)
    (kvs : List (String × PyValue)) : PyResult PyValue :=
  match node with
  | .int _ | .float _ =>
    (integer_bound_check path node (read_minimum_value kvs)
        "value must be strictly greater than X" "value must be equal or greater than X"
        (fun ex n v => if ex then pyLt v n else pyLe v n)).andThen fun okMin =>
    if ¬ okMin then .ok .null [] []
    else
      (integer_bound_check path node (read_maximum_value kvs)
          "value must be strictly less than X" "value must be equal or less than X"
          (fun ex n v => if ex then pyLt n v else pyLe n v)).andThen fun okMax =>
      if ¬ okMax then .ok .null [] []
      else .ok (py_int node) [] []
  | _ => .ok .null [.validationError path "was expecting a JSON number"] []

/-- `process_decimal_node(path, node, specs, errors, warnings)`: the body is
`pass`, so the Python function returns `None` whatever the node is. -/
def process_decimal_node (_path : String) (_node : PyValue)
    (_kvs : List (String × PyValue)) : PyResult PyValue :=
  .ok .null [] []

/-- The length checks shared (textually duplicated, with `what` naming the
checked type in the messages) by `process_string_node` and
`process_list_node`: `ok true` means the checks passed, `ok false` that an
error was recorded and the caller returns `None`.  A `length` property that
is neither an int nor a dict (e.g. a float, which the schema validator
accepts with a warning) raises `AttributeError` on `.get`. -/
def check_length_bounds (what path : String) (len : Nat) (length : PyValue) :
    PyResult Bool :=
  match length with
  | .null => .ok true [] []
  | .int L =>
    if (len : Int) ≠ L then
      .ok false [.validationError path ("length of " ++ what ++ " must be equal to X")] []
    else .ok true [] []
  | .dict lkvs =>
    let minimum := dictGet lkvs "minimum"
    let maximum := dictGet lkvs "maximum"
    if truthy minimum then
      match pyLe minimum (.int len) with
      | .error x => .exc x [] []
      | .ok ge =>
        if ¬ ge then
          .ok false
            [.validationError path ("length of " ++ what ++ " must be greater or equal to X")] []
        else
          if truthy maximum then
            match pyLe (.int len) maximum with
            | .error x => .exc x [] []
            | .ok le =>
              if ¬ le then
                .ok false
                  [.validationError path
                    ("length of " ++ what ++ " must be lower or equal to X")] []
              else .ok true [] []
          else .ok true [] []
    else
      if truthy maximum then
        match pyLe (.int len) maximum with
        | .error x => .exc x [] []
        | .ok le =>
          if ¬ le then
            .ok false
              [.validationError path ("length of " ++ what ++ " must be lower or equal to X")] []
          else .ok true [] []
      else .ok true [] []
  | _ => .exc (.attributeError "object has no attribute get") [] []

/-- `process_string_node(path, node, specs, errors, warnings)`: note the two
`raise` statements — a non-string node and a pattern mismatch abort the
whole walk with a `ValidationError` instead of appending to `errors`. -/
def process_string_node (path : String) (node : PyValue)
    (kvs : List (String × PyValue)) : PyResult PyValue :=
  match node with
  | .str s =>
    (check_length_bounds "string" path s.length (dictGet kvs "length")).andThen fun passed =>
    if ¬ passed then .ok .null [] []
    else
      let pat := dictGet kvs "pattern"
      if pat.isNull then .ok node [] []
      else
        match pat with
        | .str p =>
          if re_match_literal p s then .ok node [] []
          else .exc (.raised (.validationError path "didnt match pattern")) [] []
        | _ => .exc (.typeError "first argument must be string or compiled pattern") [] []
  | _ => .exc (.raised (.validationError path "was expecting a JSON string")) [] []

/-- `process_enum_node(path, node, specs, errors, warnings)`.  Membership of
the (string) node in `values` uses Python `==`, which is plain string
equality against string elements and `False` against anything else. -/
def process_enum_node (path : String) (node : PyValue)
    (kvs : List (String × PyValue)) : PyResult PyValue :=
  match node with
  | .str s =>
    match pyLookup kvs "values" with
    | Option.none => .exc (.keyError "values") [] []
    | some (.list vs) =>
      if vs.any (fun v => match v with | .str t => t = s | _ => false) then .ok node [] []
      else .ok .null [.validationError path "value was expected to be one of [foo, bar, quz]"] []
    | some _ => .exc (.typeError "argument is not iterable") [] []
  | _ => .ok .null [.validationError path "was expecting a JSON string"] []

/-- The loop of `process_list_node`: converts every element at path
`.[<index>]` against the element schema, appending the results (a failing
element contributes its `None` return value). -/
def run_list_items (adjustF : String → PyValue → PyValue → PyResult PyValue)
    (path : String) (vspec : PyValue) (idx : Nat) (items : List PyValue) :
    PyResult (List PyValue) :=
  match items with
  | [] => .ok [] [] []
  | item :: rest =>
    match adjustF (path ++ ".[" ++ toString idx ++ "]") item vspec with
    | .ok v e w =>
      match run_list_items adjustF path vspec (idx + 1) rest with
      | .ok vs e2 w2 => .ok (v :: vs) (e ++ e2) (w ++ w2)
      | .exc x e2 w2 => .exc x (e ++ e2) (w ++ w2)
    | .exc x e w => .exc x e w

/-- `process_list_node(path, node, specs, errors, warnings)`: the element
schema is read with `specs['value']` before the node's type is checked. -/
def process_list_node (adjustF : String → PyValue → PyValue → PyResult PyValue)
    (path : String) (node : PyValue) (kvs : List (String × PyValue)) : PyResult PyValue :=
  match pyLookup kvs "value" with
  | Option.none => .exc (.keyError "value") [] []
  | some vspec =>
    match node with
    | .list items =>
      (check_length_bounds "list" path items.length (dictGet kvs "length")).andThen
        fun passed =>
          if ¬ passed then .ok .null [] []
          else
            match run_list_items adjustF path vspec 0 items with
            | .ok vs e w => .ok (.list vs) e w
            | .exc x e w => .exc x e w
    | _ => .ok .null [.validationError path "was expecting a JSON array"] []

/-- The loop of `process_tuple_node`: converts position `i` against
`values[i]` at path `.(<index>)`. -/
def run_tuple_items (adjustF : String → PyValue → PyValue → PyResult PyValue)
    (path : String) (idx : Nat) (items vspecs : List PyValue) :
    PyResult (List PyValue) :=
  match items, vspecs with
  | [], _ => .ok [] [] []
  | _, [] => .ok [] [] []
  | item :: rest, vspec :: vrest =>
    match adjustF (path ++ ".(" ++ toString idx ++ ")") item vspec with
    | .ok v e w =>
      match run_tuple_items adjustF path (idx + 1) rest vrest with
      | .ok vs e2 w2 => .ok (v :: vs) (e ++ e2) (w ++ w2)
      | .exc x e2 w2 => .exc x (e ++ e2) (w ++ w2)
    | .exc x e w => .exc x e w

/-- `process_tuple_node(path, node, specs, errors, warnings)`: the adjusted
value is a Python *tuple* of the converted elements. -/
def process_tuple_node (adjustF : String → PyValue → PyValue → PyResult PyValue)
    (path : String) (node : PyValue) (kvs : List (String × PyValue)) : PyResult PyValue :=
  match pyLookup kvs "values" with
  | Option.none => .exc (.keyError "values") [] []
  | some values =>
    match node with
    | .list items =>
      match values with
      | .list vs =>
        if items.length ≠ vs.length then
          .ok .null [.validationError path "was expecting array of N elements"] []
        else
          match run_tuple_items adjustF path 0 items vs with
          | .ok out e w => .ok (.tuple out) e w
          | .exc x e w => .exc x e w
      | _ => .exc (.typeError "object has no len()") [] []
    | _ => .ok .null [.validationError path "was expecting a JSON array"] []

/-- The loop of `process_map_node`: every field declared in the schema that
is present in the document is converted at path `.<fieldName>`; declared
fields absent from the document are skipped, and document fields not
declared in the schema are never visited. -/
def run_map_fields (adjustF : String → PyValue → PyValue → PyResult PyValue)
    (path : String) (nkvs : List (String × PyValue))
    (fields : List (String × PyValue)) : PyResult (List (String × PyValue)) :=
  match fields with
  | [] => .ok [] [] []
  | (key, fspec) :: rest =>
    match pyLookup nkvs key with
    | some nv =>
      match adjustF (path ++ "." ++ key) nv fspec with
      | .ok v e w =>
        match run_map_fields adjustF path nkvs rest with
        | .ok out e2 w2 => .ok ((key, v) :: out) (e ++ e2) (w ++ w2)
        | .exc x e2 w2 => .exc x (e ++ e2) (w ++ w2)
      | .exc x e w => .exc x e w
    | Option.none => run_map_fields adjustF path nkvs rest

/-- `process_map_node(path, node, specs, errors, warnings)`. -/
def process_map_node (adjustF : String → PyValue → PyValue → PyResult PyValue)
    (path : String) (node : PyValue) (kvs : List (String × PyValue)) : PyResult PyValue :=
  match pyLookup kvs "fields" with
  | Option.none => .exc (.keyError "fields") [] []
  | some fields =>
    match node with
    | .dict nkvs =>
      match fields with
      | .dict fkvs =>
        match run_map_fields adjustF path nkvs fkvs with
        | .ok out e w => .ok (.dict out) e w
        | .exc x e w => .exc x e w
      | _ => .exc (.attributeError "object has no attribute items") [] []
    | _ => .ok .null [.validationError path "was expecting a JSON object"] []

/-- `adjust_node(path, node, specs, errors, warnings)`: the optional/null
handling, then dispatch through the `adjust_node_map` table.  The error
appended for a null non-optional value is a `ValueError` in the source. -/
def adjust_node : Nat → String → PyValue → PyValue → PyResult PyValue
  | 0, _, _, _ => .exc .outOfFuel [] []
  | fuel + 1, path, node, specs =>
    match specs with
    | .dict kvs =>
      let optional := dictGet kvs "option"
      if ¬ truthy optional ∧ node.isNull then
        .ok .null [.valueError path "value cant be null"] []
      else if truthy optional ∧ node.isNull then
        .ok .null [] []
      else
        match pyLookup kvs "type" with
        | Option.none => .exc (.keyError "type") [] []
        | some (.str "flag") => process_flag_node path node
        | some (.str "integer") => process_integer_node path node kvs
        | some (.str "decimal") => process_decimal_node path node kvs
        | some (.str "string") => process_string_node path node kvs
        | some (.str "enum") => process_enum_node path node kvs
        | some (.str "list") =>
          process_list_node (fun p n s => adjust_node fuel p n s) path node kvs
        | some (.str "tuple") =>
          process_tuple_node (fun p n s => adjust_node fuel p n s) path node kvs
        | some (.str "map") =>
          process_map_node (fun p n s => adjust_node fuel p n s) path node kvs
        | some _ => .exc (.keyError "adjust_node_map") [] []
    | _ => .exc (.attributeError "object has no attribute get") [] []

/-- `document_to_object(document, specs, errors, warnings)` starting from
the already decoded document value: `lazy := true` models a caller-supplied
empty `errors` list; fail-fast mode raises the first recorded error after
the walk. -/
def document_to_object (fuel : Nat) (lazy : Bool) (object specs : PyValue) :
    PyResult PyValue :=
  match adjust_node fuel "root" object specs with
  | .ok v [] w => .ok v [] w
  | .ok v (d :: ds) w => if lazy then .ok v (d :: ds) w else .exc (.raised d) (d :: ds) w
  | .exc x e w => .exc x e w

/-!
## Embedding of byteplug/document/types.py (builder API)

One structure per builder class; a constructed value models an instance
whose `__init__` assertions succeeded (an `Integer` bound is an int or an
`(int, bool)` tuple).  `to_object` mirrors the method of the same name.
-/

/-- A `min`/`max` argument accepted by `Integer.__init__`: a bare int or a
`(value, exclusive)` tuple. -/
inductive IntegerBound where
  | int (n : Int)
  | pair (value : Int) (exclusive : Bool)

/-- Python truthiness of a stored bound (`if self.minimum:`): `0` is falsy,
any tuple is truthy. -/
def IntegerBound.truthy : IntegerBound → Bool
  | .int n => n ≠ 0
  | .pair _ _ => true

/-- The schema value `Integer.to_object` emits for a bound. -/
def IntegerBound.to_value : IntegerBound → PyValue
  | .int n => .int n
  | .pair v e => .dict [("exclusive", .bool e), ("value", .int v)]

/-- The numeric value of a bound. -/
def IntegerBound.val : IntegerBound → Int
  | .int n => n
  | .pair v _ => v

/-- `class Integer(Type)` of types.py. -/
structure Integer where
  min : Option IntegerBound := Option.none
  max : Option IntegerBound := Option.none
  option : Bool := false

/-- `Integer.to_object`: emits `minimum`/`maximum` only when the stored
bound is truthy, then `Type.update_object` adds `option: true` when set. -/
def Integer.to_object (t : Integer) : PyValue :=
  .dict ([("type", .str "integer")]
    ++ (match t.min with
        | some b => if b.truthy then [("minimum", b.to_value)] else []
        | Option.none => [])
    ++ (match t.max with
        | some b => if b.truthy then [("maximum", b.to_value)] else []
        | Option.none => [])
    ++ (if t.option then [("option", .bool true)] else []))

/-- `class Enum(Type)` of types.py (its `__init__` asserts nothing about
the elements). -/
structure Enum where
  values : List PyValue
  option : Bool := false

/-- `Enum.to_object`. -/
def Enum.to_object (t : Enum) : PyValue :=
  .dict ([("type", .str "enum"), ("values", .list t.values)]
    ++ (if t.option then [("option", .bool true)] else []))

/-!
## Claims
-/

/-- C1: the spec says lazy `validate_specs` reports at least one error iff
the schema violates the grammar (and fail-fast raises the first such
error).  On the schema `{type: enum, values: [1]}` — which violates the
grammar — both modes instead crash with a `TypeError` from
`re.match(r"...", 1)` before any diagnostic is recorded, although the
function's own docstring promises the diagnostic "'<foo>' is an incorrect
value" for bad enum values. -/
theorem C1_enum_nonstring_value_crashes :
    validate_specs 32 true (.dict [("type", .str "enum"), ("values", .list [.int 1])])
      = .exc (.typeError "expected string or bytes-like object") [] []
    ∧ validate_specs 32 false (.dict [("type", .str "enum"), ("values", .list [.int 1])])
      = .exc (.typeError "expected string or bytes-like object") [] [] :=
  ⟨rfl, rfl⟩

/-- C2: the spec says lazy `validate_specs` terminates normally for every
schema value, recording each violation as a diagnostic.  On the schema
`{type: string, length: {minimum: "a"}}` the code records the "value must be
a number" diagnostic and then crashes with a `TypeError` on the unguarded
comparison `minimum < 0` in `validate_length_property`. -/
theorem C2_lazy_validate_crashes_on_nonnumeric_length_bound :
    validate_specs 32 true
        (.dict [("type", .str "string"), ("length", .dict [("minimum", .str "a")])])
      = .exc (.typeError "'<' not supported between instances")
          [.validationError "root.length.minimum" "value must be a number"] [] :=
  rfl

/-- C3: the spec says document conversion in lazy mode records every
violation — including a non-string value or a pattern mismatch at a string
node — and keeps walking sibling branches.  `process_string_node` instead
`raise`s a `ValidationError` in both situations, aborting the whole walk
even in lazy mode: a non-string document against `{type: string}`, a
pattern mismatch, and a list whose first element fails (so its sibling is
never attempted) all escape as exceptions with an empty collector. -/
theorem C3_string_node_raises_in_lazy_mode :
    document_to_object 32 true (.int 5) (.dict [("type", .str "string")])
      = .exc (.raised (.validationError "root" "was expecting a JSON string")) [] []
    ∧ document_to_object 32 true (.str "xy")
        (.dict [("type", .str "string"), ("pattern", .str "ab")])
      = .exc (.raised (.validationError "root" "didnt match pattern")) [] []
    ∧ document_to_object 32 true (.list [.int 5, .str "ok"])
        (.dict [("type", .str "list"), ("value", .dict [("type", .str "string")])])
      = .exc (.raised (.validationError "root.[0]" "was expecting a JSON string")) [] [] :=
  ⟨rfl, rfl, rfl⟩

/-- C8 counterexample: the claim says conversion at a decimal node is a
pass-through no-op whose adjusted value is the document value unchanged.
For the document value `5` against `{type: decimal}` the adjusted value is
`None` (the body of `process_decimal_node` is `pass`), not `5`. -/
theorem C8_counterexample_decimal_discards_value :
    adjust_node 8 "root" (.int 5) (.dict [("type", .str "decimal")]) = .ok .null [] []
    ∧ PyValue.null ≠ PyValue.int 5 :=
  ⟨rfl, by intro h; cases h⟩

/-- C8 (amended): conversion at a decimal node performs no validation and
records no error or warning, but the adjusted value is the `None` sentinel
— the document value is discarded, not passed through. -/
theorem C8_decimal_returns_none (fuel : Nat) (path : String) (node : PyValue)
    (h : node.isNull = false) :
    (∀ p n kvs, process_decimal_node p n kvs = .ok .null [] [])
    ∧ adjust_node (fuel + 1) path node (.dict [("type", .str "decimal")])
        = .ok .null [] [] := by
  refine ⟨fun p n kvs => rfl, ?_⟩
  simp [adjust_node, dictGet, pyLookup, truthy, h, process_decimal_node]

/-- C8 witness: the amended theorem applied at the document value `7`. -/
theorem C8_decimal_returns_none_witness :
    adjust_node 8 "root" (.int 7) (.dict [("type", .str "decimal")]) = .ok .null [] [] :=
  (C8_decimal_returns_none 7 "root" (.int 7) rfl).2

/-- One step of the converter at a flag node. -/
theorem adjust_node_flag (f : Nat) (p : String) (b : Bool) :
    adjust_node (f + 1) p (.bool b) (.dict [("type", .str "flag")])
      = .ok (.bool b) [] [] := by
  simp [adjust_node, dictGet, pyLookup, truthy, PyValue.isNull, process_flag_node]

/-- The list-conversion loop over flag elements keeps every element and
records nothing, for any converter behaving like the flag processor. -/
theorem run_list_items_all_flags (adjustF : String → PyValue → PyValue → PyResult PyValue)
    (path : String)
    (hF : ∀ p (b : Bool), adjustF p (.bool b) (.dict [("type", .str "flag")])
      = .ok (.bool b) [] []) :
    ∀ (idx : Nat) (bs : List Bool),
      run_list_items adjustF path (.dict [("type", .str "flag")]) idx (bs.map PyValue.bool)
        = .ok (bs.map PyValue.bool) [] [] := by
  intro idx bs
  induction bs generalizing idx with
  | nil => rfl
  | cons b rest ih =>
    simp only [List.map, run_list_items]
    rw [hF, ih (idx + 1)]
    rfl

/-- `process_list_node` against a flag element schema and length checks
that always pass keeps the whole list and records nothing. -/
theorem process_list_node_flags (adjustF : String → PyValue → PyValue → PyResult PyValue)
    (path : String) (kvs : List (String × PyValue))
    (hv : pyLookup kvs "value" = some (.dict [("type", .str "flag")]))
    (hlen : ∀ L : Nat, check_length_bounds "list" path L (dictGet kvs "length")
      = .ok true [] [])
    (hF : ∀ p (b : Bool), adjustF p (.bool b) (.dict [("type", .str "flag")])
      = .ok (.bool b) [] [])
    (bs : List Bool) :
    process_list_node adjustF path (.list (bs.map PyValue.bool)) kvs
      = .ok (.list (bs.map PyValue.bool)) [] [] := by
  simp only [process_list_node, hv]
  rw [show (bs.map PyValue.bool).length = bs.length by simp]
  rw [hlen bs.length]
  simp only [PyResult.andThen]
  rw [run_list_items_all_flags adjustF path hF 0 bs]
  simp

/-- C10: in document conversion a length bound of 0 is skipped (Python
truthiness): a string of any length passes `length: {maximum: 0}`, and a
list of any length passes `length: {minimum: 0}` as well as
`length: {maximum: 0}`. -/
theorem C10_zero_length_bound_is_skipped :
    (∀ s : String,
      process_string_node "root" (.str s)
          [("type", .str "string"), ("length", .dict [("maximum", .int 0)])]
        = .ok (.str s) [] [])
    ∧ (∀ (fuel : Nat) (s : String),
      adjust_node (fuel + 1) "root" (.str s)
          (.dict [("type", .str "string"), ("length", .dict [("maximum", .int 0)])])
        = .ok (.str s) [] [])
    ∧ (∀ (fuel : Nat) (bs : List Bool),
      adjust_node (fuel + 2) "root" (.list (bs.map PyValue.bool))
          (.dict [("type", .str "list"), ("value", .dict [("type", .str "flag")]),
                  ("length", .dict [("minimum", .int 0)])])
        = .ok (.list (bs.map PyValue.bool)) [] [])
    ∧ (∀ (fuel : Nat) (bs : List Bool),
      adjust_node (fuel + 2) "root" (.list (bs.map PyValue.bool))
          (.dict [("type", .str "list"), ("value", .dict [("type", .str "flag")]),
                  ("length", .dict [("maximum", .int 0)])])
        = .ok (.list (bs.map PyValue.bool)) [] []) := by
  refine ⟨?_, ?_, ?_, ?_⟩
  · intro s
    simp [process_string_node, check_length_bounds, dictGet, pyLookup, truthy,
      PyResult.andThen, PyValue.isNull]
  · intro fuel s
    simp [adjust_node, dictGet, pyLookup, truthy, PyValue.isNull, process_string_node,
      check_length_bounds, PyResult.andThen]
  · intro fuel bs
    have step : adjust_node (fuel + 2) "root" (.list (bs.map PyValue.bool))
        (.dict [("type", .str "list"), ("value", .dict [("type", .str "flag")]),
                ("length", .dict [("minimum", .int 0)])])
      = process_list_node (fun p n s => adjust_node (fuel + 1) p n s) "root"
          (.list (bs.map PyValue.bool))
          [("type", .str "list"), ("value", .dict [("type", .str "flag")]),
           ("length", .dict [("minimum", .int 0)])] := rfl
    rw [step]
    exact process_list_node_flags (fun p n s => adjust_node (fuel + 1) p n s) "root"
      [("type", .str "list"), ("value", .dict [("type", .str "flag")]),
       ("length", .dict [("minimum", .int 0)])] rfl (fun L => rfl)
      (fun p b => adjust_node_flag fuel p b) bs
  · intro fuel bs
    have step : adjust_node (fuel + 2) "root" (.list (bs.map PyValue.bool))
        (.dict [("type", .str "list"), ("value", .dict [("type", .str "flag")]),
                ("length", .dict [("maximum", .int 0)])])
      = process_list_node (fun p n s => adjust_node (fuel + 1) p n s) "root"
          (.list (bs.map PyValue.bool))
          [("type", .str "list"), ("value", .dict [("type", .str "flag")]),
           ("length", .dict [("maximum", .int 0)])] := rfl
    rw [step]
    exact process_list_node_flags (fun p n s => adjust_node (fuel + 1) p n s) "root"
      [("type", .str "list"), ("value", .dict [("type", .str "flag")]),
       ("length", .dict [("maximum", .int 0)])] rfl (fun L => rfl)
      (fun p b => adjust_node_flag fuel p b) bs

/-- C6: against `{type: integer, minimum: {value: 5, exclusive: true}}`
conversion records a bound violation for the document value `5` and accepts
`6`; in general an exclusive bound compares strictly and an inclusive bound
non-strictly (shown for all integer document values and bound values, for
both `minimum` and `maximum`), and a successful conversion returns the
document number coerced to integer representation (truncation for floats). -/
theorem C6_integer_bounds :
    (adjust_node 8 "root" (.int 5)
        (.dict [("type", .str "integer"),
                ("minimum", .dict [("value", .int 5), ("exclusive", .bool true)])])
      = .ok .null [.validationError "root" "value must be strictly greater than X"] [])
    ∧ (adjust_node 8 "root" (.int 6)
        (.dict [("type", .str "integer"),
                ("minimum", .dict [("value", .int 5), ("exclusive", .bool true)])])
      = .ok (.int 6) [] [])
    ∧ (∀ n v : Int,
      process_integer_node "p" (.int n)
          [("type", .str "integer"),
           ("minimum", .dict [("value", .int v), ("exclusive", .bool true)])]
        = if v < n then .ok (.int n) [] []
          else .ok .null [.validationError "p" "value must be strictly greater than X"] [])
    ∧ (∀ n v : Int,
      process_integer_node "p" (.int n) [("type", .str "integer"), ("minimum", .int v)]
        = if v ≤ n then .ok (.int n) [] []
          else .ok .null [.validationError "p" "value must be equal or greater than X"] [])
    ∧ (∀ n v : Int,
      process_integer_node "p" (.int n)
          [("type", .str "integer"),
           ("maximum", .dict [("value", .int v), ("exclusive", .bool true)])]
        = if n < v then .ok (.int n) [] []
          else .ok .null [.validationError "p" "value must be strictly less than X"] [])
    ∧ (∀ n v : Int,
      process_integer_node "p" (.int n) [("type", .str "integer"), ("maximum", .int v)]
        = if n ≤ v then .ok (.int n) [] []
          else .ok .null [.validationError "p" "value must be equal or less than X"] [])
    ∧ (∀ q : Rat,
      process_integer_node "p" (.float q) [("type", .str "integer")]
        = .ok (.int (Int.tdiv q.num (q.den : Int))) [] []) := by
  refine ⟨rfl, rfl, ?_, ?_, ?_, ?_, fun q => rfl⟩
  · intro n v
    have step : process_integer_node "p" (.int n)
        [("type", .str "integer"),
         ("minimum", .dict [("value", .int v), ("exclusive", .bool true)])]
      = PyResult.andThen
          (if decide ((v : Rat) < (n : Rat)) = true then .ok true [] []
           else .ok false [.validationError "p" "value must be strictly greater than X"] [])
          (fun okMin => if ¬ okMin then .ok .null [] [] else .ok (.int n) [] []) := rfl
    rw [step]
    by_cases h : v < n
    · have hd : decide ((v : Rat) < (n : Rat)) = true := by simp [h]
      rw [hd, if_pos h]; rfl
    · have hd : decide ((v : Rat) < (n : Rat)) = false := by simp [h]
      rw [hd, if_neg h]; rfl
  · intro n v
    have step : process_integer_node "p" (.int n)
        [("type", .str "integer"), ("minimum", .int v)]
      = PyResult.andThen
          (if decide ((v : Rat) ≤ (n : Rat)) = true then .ok true [] []
           else .ok false [.validationError "p" "value must be equal or greater than X"] [])
          (fun okMin => if ¬ okMin then .ok .null [] [] else .ok (.int n) [] []) := rfl
    rw [step]
    by_cases h : v ≤ n
    · have hd : decide ((v : Rat) ≤ (n : Rat)) = true := by simp [h]
      rw [hd, if_pos h]; rfl
    · have hd : decide ((v : Rat) ≤ (n : Rat)) = false := by simp [h]
      rw [hd, if_neg h]; rfl
  · intro n v
    have step : process_integer_node "p" (.int n)
        [("type", .str "integer"),
         ("maximum", .dict [("value", .int v), ("exclusive", .bool true)])]
      = PyResult.andThen (.ok true [] [])
          (fun okMin => if ¬ okMin then .ok .null [] []
            else PyResult.andThen
              (if decide ((n : Rat) < (v : Rat)) = true then .ok true [] []
               else .ok false [.validationError "p" "value must be strictly less than X"] [])
              (fun okMax => if ¬ okMax then .ok .null [] [] else .ok (.int n) [] [])) := rfl
    rw [step]
    by_cases h : n < v
    · have hd : decide ((n : Rat) < (v : Rat)) = true := by simp [h]
      rw [hd, if_pos h]; rfl
    · have hd : decide ((n : Rat) < (v : Rat)) = false := by simp [h]
      rw [hd, if_neg h]; rfl
  · intro n v
    have step : process_integer_node "p" (.int n)
        [("type", .str "integer"), ("maximum", .int v)]
      = PyResult.andThen (.ok true [] [])
          (fun okMin => if ¬ okMin then .ok .null [] []
            else PyResult.andThen
              (if decide ((n : Rat) ≤ (v : Rat)) = true then .ok true [] []
               else .ok false [.validationError "p" "value must be equal or less than X"] [])
              (fun okMax => if ¬ okMax then .ok .null [] [] else .ok (.int n) [] [])) := rfl
    rw [step]
    by_cases h : n ≤ v
    · have hd : decide ((n : Rat) ≤ (v : Rat)) = true := by simp [h]
      rw [hd, if_pos h]; rfl
    · have hd : decide ((n : Rat) ≤ (v : Rat)) = false := by simp [h]
      rw [hd, if_neg h]; rfl

/-- The adjusted entries produced by the map-field loop carry exactly the
declared keys that are present in the document, in declaration order. -/
theorem run_map_fields_keyset
    (adjustF : String → PyValue → PyValue → PyResult PyValue) (path : String)
    (nkvs : List (String × PyValue)) :
    ∀ (fields out : List (String × PyValue)) (e w : List Diag),
      run_map_fields adjustF path nkvs fields = .ok out e w →
      out.map Prod.fst =
        (fields.map Prod.fst).filter (fun k => (pyLookup nkvs k).isSome) := by
  intro fields
  induction fields with
  | nil =>
    intro out e w h
    simp only [run_map_fields, PyResult.ok.injEq] at h
    obtain ⟨rfl, rfl, rfl⟩ := h
    simp
  | cons kv rest ih =>
    obtain ⟨key, fspec⟩ := kv
    intro out e w h
    simp only [run_map_fields] at h
    split at h
    next nv heq =>
      split at h
      next v e1 w1 ha =>
        split at h
        next out2 e2 w2 hr =>
          simp only [PyResult.ok.injEq] at h
          obtain ⟨rfl, rfl, rfl⟩ := h
          simpa [heq] using ih out2 e2 w2 hr
        next x e2 w2 hr => simp at h
      next x e1 w1 ha => simp at h
    next heq =>
      simpa [heq] using ih out e w h

/-- C5: the adjusted value of a map node contains exactly the fields that
are both declared in the schema and present in the document (shown for the
whole field loop, any converter and any document mapping); a declared
optional field absent from the document is omitted without error; a declared
optional field present as null converts to null without error; and a
document field not declared in the schema is dropped without any diagnostic
(shown for an arbitrary undeclared key and value). -/
theorem C5_map_keeps_declared_present_fields :
    (∀ (adjustF : String → PyValue → PyValue → PyResult PyValue) (path : String)
        (nkvs fields out : List (String × PyValue)) (e w : List Diag),
      run_map_fields adjustF path nkvs fields = .ok out e w →
      out.map Prod.fst =
        (fields.map Prod.fst).filter (fun k => (pyLookup nkvs k).isSome))
    ∧ (∀ (fuel : Nat) (k : String) (v : PyValue), k ≠ "x" →
      adjust_node (fuel + 2) "root" (.dict [(k, v)])
          (.dict [("type", .str "map"),
                  ("fields",
                    .dict [("x", .dict [("type", .str "flag"), ("option", .bool true)])])])
        = .ok (.dict []) [] [])
    ∧ (adjust_node 8 "root" (.dict [])
          (.dict [("type", .str "map"),
                  ("fields",
                    .dict [("x", .dict [("type", .str "flag"), ("option", .bool true)])])])
        = .ok (.dict []) [] [])
    ∧ (adjust_node 8 "root" (.dict [("x", .null)])
          (.dict [("type", .str "map"),
                  ("fields",
                    .dict [("x", .dict [("type", .str "flag"), ("option", .bool true)])])])
        = .ok (.dict [("x", .null)]) [] []) := by
  refine ⟨?_, ?_, rfl, rfl⟩
  · intro adjustF path nkvs fields out e w h
    exact run_map_fields_keyset adjustF path nkvs fields out e w h
  · intro fuel k v hk
    have step : adjust_node (fuel + 2) "root" (.dict [(k, v)])
        (.dict [("type", .str "map"),
                ("fields",
                  .dict [("x", .dict [("type", .str "flag"), ("option", .bool true)])])])
      = process_map_node (fun p n s => adjust_node (fuel + 1) p n s) "root"
          (.dict [(k, v)])
          [("type", .str "map"),
           ("fields", .dict [("x", .dict [("type", .str "flag"), ("option", .bool true)])])] :=
      rfl
    rw [step]
    simp [process_map_node, run_map_fields, pyLookup, hk]

/-- C5 witness: a document carrying only the undeclared field `y` converts
to the empty mapping with no diagnostic. -/
theorem C5_map_keeps_declared_present_fields_witness :
    adjust_node 8 "root" (.dict [("y", .int 3)])
        (.dict [("type", .str "map"),
                ("fields",
                  .dict [("x", .dict [("type", .str "flag"), ("option", .bool true)])])])
      = .ok (.dict []) [] [] :=
  C5_map_keeps_declared_present_fields.2.1 6 "y" (.int 3) (by simp)

/-- C7 counterexample: the claim promises that after the unexpected-property
error the kind-specific checks *and* the `option` boolean check still run.
On the node `{type: string, length: {minimum: "a"}, foo: 1, option: 3}` the
unexpected property `foo` is reported and the kind checker starts, but it
crashes on the unguarded `minimum < 0` comparison, so the `option` check
never runs: its "value must be a bool" diagnostic is absent from the
recorded errors. -/
theorem C7_counterexample_option_check_skipped_on_crash :
    validate_block 32 "root"
        (.dict [("type", .str "string"), ("length", .dict [("minimum", .str "a")]),
                ("foo", .int 1), ("option", .int 3)])
      = .exc (.typeError "'<' not supported between instances")
          [.validationError "root" "'foo' property is unexpected",
           .validationError "root.length.minimum" "value must be a number"] []
    ∧ Diag.validationError "root.option" "value must be a bool" ∉
        [Diag.validationError "root" "'foo' property is unexpected",
         Diag.validationError "root.length.minimum" "value must be a number"] :=
  ⟨rfl, by simp⟩

/-- One step of `validate_block` at a mapping node with a recognized type
whose kind checker returns normally: the diagnostics are the at-most-one
unexpected-property error, then the kind checker's, then the `option`
check's. -/
theorem validate_block_succ_ok (fuel : Nat) (path tname : String)
    (kvs : List (String × PyValue)) (wl : List String) (ke kw : List Diag)
    (htype : dictGet kvs "type" = .str tname)
    (hwl : kinds_whitelist tname = some wl)
    (hkind : validate_kind (fun p b => validate_block fuel p b) tname path kvs
      = .ok () ke kw) :
    validate_block (fuel + 1) path (.dict kvs)
      = .ok ()
          (unexpected_property_errors path kvs wl ++ ke ++ option_property_errors path kvs)
          kw
    ∧ (unexpected_property_errors path kvs wl).length ≤ 1 := by
  have hne : tname ≠ "" := by
    intro hemp
    rw [hemp] at hwl
    simp [kinds_whitelist] at hwl
  refine ⟨?_, ?_⟩
  · simp only [validate_block]
    rw [htype]
    simp [truthy, hne, hwl, hkind]
  · unfold unexpected_property_errors
    split <;> simp

/-- C7 (amended): for every schema node that is a mapping with a recognized
type, `validate_block` reports at most one unexpected-property error, and —
provided the kind-specific checker returns normally — the kind checks and
the `option` boolean check still run, their diagnostics accumulating after
the unexpected-property error. -/
theorem C7_block_structure (fuel : Nat) (path tname : String)
    (kvs : List (String × PyValue)) (wl : List String) (ke kw : List Diag)
    (htype : dictGet kvs "type" = .str tname)
    (hwl : kinds_whitelist tname = some wl)
    (hkind : validate_kind (fun p b => validate_block fuel p b) tname path kvs
      = .ok () ke kw) :
    validate_block (fuel + 1) path (.dict kvs)
      = .ok ()
          (unexpected_property_errors path kvs wl ++ ke ++ option_property_errors path kvs)
          kw
    ∧ (unexpected_property_errors path kvs wl).length ≤ 1 :=
  validate_block_succ_ok fuel path tname kvs wl ke kw htype hwl hkind

/-- C7 witness: the amended theorem applied to a flag node with one
unexpected key and a well-typed `option`. -/
theorem C7_block_structure_witness :
    validate_block 4 "root"
        (.dict [("type", .str "flag"), ("foo", .int 1), ("option", .bool true)])
      = .ok () [.validationError "root" "'foo' property is unexpected"] [] :=
  (C7_block_structure 3 "root" "flag"
    [("type", .str "flag"), ("foo", .int 1), ("option", .bool true)] [] [] []
    rfl rfl rfl).1

/-- C9 counterexample: the claim promises that every constraint supplied to
a builder constructor — including a bound of 0 — appears in `to_object`'s
result and that the result passes the schema validator.  `Integer(min=0)`
drops the bound (`if self.minimum:` is falsy on 0), and builder outputs can
fail the validator: `Enum(["A"])` yields an invalid identifier error and
`Integer(min=10, max=5)` an inverted-range error. -/
theorem C9_counterexample_builder_not_lossless :
    Integer.to_object { min := some (.int 0) } = .dict [("type", .str "integer")]
    ∧ validate_specs 8 true (Enum.to_object { values := [.str "A"] })
        = .ok () [.validationError "root.values" "'A' is an incorrect value"] []
    ∧ validate_specs 8 true (Integer.to_object { min := some (.int 10), max := some (.int 5) })
        = .ok () [.validationError "root" "minimum must be lower than maximum"] [] :=
  ⟨rfl, rfl, rfl⟩

/-- The bound the builder emits: present exactly when the stored bound is
truthy (so a bare 0 disappears while a `(0, exclusive)` pair survives). -/
def emittedBound (o : Option IntegerBound) : Option IntegerBound :=
  match o with
  | some b => if b.truthy then some b else Option.none
  | Option.none => Option.none

/-- The schema validator resolves any emitted builder bound to the
non-exclusive pair on its integer value, with no diagnostics. -/
theorem vmm_on_bound (name path : String) (b : IntegerBound) :
    validate_minimum_or_maximum_property name path b.to_value
      = (some (.bool false, .int b.val), []) := by
  cases b with
  | int n => rfl
  | pair v e => cases e <;> rfl

theorem integer_bound_on_entry (warnFloat : Bool) (name path : String)
    (kvs : List (String × PyValue)) (b : IntegerBound)
    (h : pyLookup kvs name = some b.to_value) :
    integer_bound warnFloat name path kvs = (some (.bool false, .int b.val), [], []) := by
  simp [integer_bound, h, vmm_on_bound, PyValue.isFloat]

theorem integer_bound_absent (warnFloat : Bool) (name path : String)
    (kvs : List (String × PyValue)) (h : pyLookup kvs name = Option.none) :
    integer_bound warnFloat name path kvs = (Option.none, [], []) := by
  simp [integer_bound, h]

theorem validate_integer_type_ok_none (path : String) (kvs : List (String × PyValue))
    (h1 : pyLookup kvs "minimum" = Option.none)
    (h2 : pyLookup kvs "maximum" = Option.none) :
    validate_integer_type path kvs = .ok () [] [] := by
  simp [validate_integer_type, integer_bound_absent true "minimum" path kvs h1,
    integer_bound_absent true "maximum" path kvs h2, integer_bounds_check]

theorem validate_integer_type_ok_min (path : String) (kvs : List (String × PyValue))
    (b1 : IntegerBound)
    (h1 : pyLookup kvs "minimum" = some b1.to_value)
    (h2 : pyLookup kvs "maximum" = Option.none) :
    validate_integer_type path kvs = .ok () [] [] := by
  simp [validate_integer_type, integer_bound_on_entry true "minimum" path kvs b1 h1,
    integer_bound_absent true "maximum" path kvs h2, integer_bounds_check]

theorem validate_integer_type_ok_max (path : String) (kvs : List (String × PyValue))
    (b2 : IntegerBound)
    (h1 : pyLookup kvs "minimum" = Option.none)
    (h2 : pyLookup kvs "maximum" = some b2.to_value) :
    validate_integer_type path kvs = .ok () [] [] := by
  simp [validate_integer_type, integer_bound_absent true "minimum" path kvs h1,
    integer_bound_on_entry true "maximum" path kvs b2 h2, integer_bounds_check]

theorem validate_integer_type_ok_both (path : String) (kvs : List (String × PyValue))
    (b1 b2 : IntegerBound)
    (h1 : pyLookup kvs "minimum" = some b1.to_value)
    (h2 : pyLookup kvs "maximum" = some b2.to_value)
    (hle : b1.val ≤ b2.val) :
    validate_integer_type path kvs = .ok () [] [] := by
  have hnot : ¬ (b2.val < b1.val) := not_lt.mpr hle
  have hd : decide ((b2.val : Rat) < (b1.val : Rat)) = false := by simp [hnot]
  simp [validate_integer_type, integer_bound_on_entry true "minimum" path kvs b1 h1,
    integer_bound_on_entry true "maximum" path kvs b2 h2, integer_bounds_check,
    pyLt, numVal, hd, hle]

/-- A `{type: integer, ...}` schema node whose kind checks, unexpected-key
check and option check are all clean passes `validate_specs` with no
diagnostics. -/
theorem validate_specs_integer_block_ok (kvs : List (String × PyValue))
    (htype : dictGet kvs "type" = .str "integer")
    (hkind : validate_integer_type "root" kvs = .ok () [] [])
    (hunexp : unexpected_property_errors "root" kvs ["minimum", "maximum"] = [])
    (hopt : option_property_errors "root" kvs = []) :
    validate_specs 8 true (.dict kvs) = .ok () [] [] := by
  have hkind2 : validate_kind (fun p b => validate_block 7 p b) "integer" "root" kvs
      = .ok () [] [] := hkind
  have hb := (validate_block_succ_ok 7 "root" "integer" kvs ["minimum", "maximum"] [] []
    htype rfl hkind2).1
  rw [hunexp, hopt] at hb
  simp only [List.append_nil, List.nil_append] at hb
  simp [validate_specs, validate_root_block, hb]

/-- C9 (amended): for every `Integer` builder value, `to_object` emits
`{type: integer}` plus exactly the truthy constraints in the §3 shape — a
bare bound equal to 0 is dropped while a `(0, exclusive)` pair is kept —
plus `option: true` when set; and, provided the emitted bounds (when both
present) satisfy minimum ≤ maximum, the result passes the schema validator
with no errors and no warnings. -/
theorem C9_integer_builder_shape_and_valid (t : Integer)
    (horder : ∀ b1 b2, emittedBound t.min = some b1 → emittedBound t.max = some b2 →
      b1.val ≤ b2.val) :
    t.to_object = .dict ([("type", .str "integer")]
        ++ (match emittedBound t.min with
            | some b => [("minimum", b.to_value)]
            | Option.none => [])
        ++ (match emittedBound t.max with
            | some b => [("maximum", b.to_value)]
            | Option.none => [])
        ++ (if t.option then [("option", .bool true)] else []))
    ∧ validate_specs 8 true t.to_object = .ok () [] [] := by
  obtain ⟨mn, mx, opt⟩ := t
  have hshape : ∀ (o : Option IntegerBound) (name : String),
      (match o with
       | some b => if b.truthy then [(name, b.to_value)] else []
       | Option.none => ([] : List (String × PyValue)))
      = (match emittedBound o with
         | some b => [(name, b.to_value)]
         | Option.none => []) := by
    intro o name
    cases o with
    | none => rfl
    | some b =>
      by_cases hb : b.truthy <;> simp [emittedBound, hb]
  have hobj : Integer.to_object ⟨mn, mx, opt⟩ = .dict ([("type", .str "integer")]
      ++ (match emittedBound mn with
          | some b => [("minimum", b.to_value)]
          | Option.none => [])
      ++ (match emittedBound mx with
          | some b => [("maximum", b.to_value)]
          | Option.none => [])
      ++ (if opt then [("option", .bool true)] else [])) := by
    simp only [Integer.to_object]
    rw [hshape mn "minimum", hshape mx "maximum"]
  refine ⟨hobj, ?_⟩
  rw [hobj]
  rcases he1 : emittedBound mn with _ | b1 <;> rcases he2 : emittedBound mx with _ | b2 <;>
    cases opt <;> simp only [he1, he2]
  · exact validate_specs_integer_block_ok _ rfl
      (validate_integer_type_ok_none "root" _ rfl rfl) rfl rfl
  · exact validate_specs_integer_block_ok _ rfl
      (validate_integer_type_ok_none "root" _ rfl rfl) rfl rfl
  · exact validate_specs_integer_block_ok _ rfl
      (validate_integer_type_ok_max "root" _ b2 rfl rfl) rfl rfl
  · exact validate_specs_integer_block_ok _ rfl
      (validate_integer_type_ok_max "root" _ b2 rfl rfl) rfl rfl
  · exact validate_specs_integer_block_ok _ rfl
      (validate_integer_type_ok_min "root" _ b1 rfl rfl) rfl rfl
  · exact validate_specs_integer_block_ok _ rfl
      (validate_integer_type_ok_min "root" _ b1 rfl rfl) rfl rfl
  · exact validate_specs_integer_block_ok _ rfl
      (validate_integer_type_ok_both "root" _ b1 b2 rfl rfl (horder b1 b2 he1 he2)) rfl rfl
  · exact validate_specs_integer_block_ok _ rfl
      (validate_integer_type_ok_both "root" _ b1 b2 rfl rfl (horder b1 b2 he1 he2)) rfl rfl

/-- C9 witness: a kept `(0, exclusive)` minimum pair together with a bare
maximum of 7 round-trips into a schema the validator accepts cleanly. -/
theorem C9_integer_builder_witness :
    validate_specs 8 true
        (Integer.to_object { min := some (.pair 0 true), max := some (.int 7) })
      = .ok () [] [] :=
  (C9_integer_builder_shape_and_valid { min := some (.pair 0 true), max := some (.int 7) }
    (fun b1 b2 h1 h2 => by
      injection h1 with e1
      injection h2 with e2
      rw [← e1, ← e2]
      decide)).2

/-!
## Schema-relative idempotence of conversion (claim C4)
-/

theorem pyLookup_cons_self (key : String) (v : PyValue)
    (rest : List (String × PyValue)) : pyLookup ((key, v) :: rest) key = some v := by
  simp [pyLookup]

theorem pyLookup_cons_ne (key k : String) (v : PyValue)
    (rest : List (String × PyValue)) (h : key ≠ k) :
    pyLookup ((key, v) :: rest) k = pyLookup rest k := by
  simp [pyLookup, h]

theorem pyLookup_eq_none_of_not_mem (k : String) :
    ∀ (kvs : List (String × PyValue)), k ∉ kvs.map Prod.fst →
      pyLookup kvs k = Option.none := by
  intro kvs
  induction kvs with
  | nil => intro _; rfl
  | cons kv rest ih =>
    obtain ⟨key, v⟩ := kv
    intro hmem
    simp only [List.map, List.mem_cons, not_or] at hmem
    rw [pyLookup_cons_ne key k v rest (fun he => hmem.1 he.symm)]
    exact ih hmem.2

/-- The schemas over which conversion is idempotent: blocks of the flag,
string, enum, list and map kinds (the kinds whose successful adjustment is a
fixed point of the converter), with list element schemas and map field
schemas recursively of the same shape, present where the converter reads
them, and map field names unique (as in a Python dict). -/
inductive BenignSpecs : PyValue → Prop where
  | flag (kvs : List (String × PyValue)) :
      pyLookup kvs "type" = some (.str "flag") → BenignSpecs (.dict kvs)
  | string (kvs : List (String × PyValue)) :
      pyLookup kvs "type" = some (.str "string") → BenignSpecs (.dict kvs)
  | enum (kvs : List (String × PyValue)) :
      pyLookup kvs "type" = some (.str "enum") → BenignSpecs (.dict kvs)
  | list (kvs : List (String × PyValue)) (vspec : PyValue) :
      pyLookup kvs "type" = some (.str "list") →
      pyLookup kvs "value" = some vspec →
      BenignSpecs vspec → BenignSpecs (.dict kvs)
  | map (kvs fkvs : List (String × PyValue)) :
      pyLookup kvs "type" = some (.str "map") →
      pyLookup kvs "fields" = some (.dict fkvs) →
      (fkvs.map Prod.fst).Nodup →
      (∀ k v, (k, v) ∈ fkvs → BenignSpecs v) →
      BenignSpecs (.dict kvs)

/-- Unfolding of `adjust_node` at a non-null document value: straight to the
kind dispatch. -/
theorem adjust_node_dispatch (f : Nat) (path : String) (D : PyValue)
    (kvs : List (String × PyValue)) (hD : D.isNull = false) :
    adjust_node (f + 1) path D (.dict kvs)
      = match pyLookup kvs "type" with
        | Option.none => .exc (.keyError "type") [] []
        | some (.str "flag") => process_flag_node path D
        | some (.str "integer") => process_integer_node path D kvs
        | some (.str "decimal") => process_decimal_node path D kvs
        | some (.str "string") => process_string_node path D kvs
        | some (.str "enum") => process_enum_node path D kvs
        | some (.str "list") =>
          process_list_node (fun p n s => adjust_node f p n s) path D kvs
        | some (.str "tuple") =>
          process_tuple_node (fun p n s => adjust_node f p n s) path D kvs
        | some (.str "map") =>
          process_map_node (fun p n s => adjust_node f p n s) path D kvs
        | some _ => .exc (.keyError "adjust_node_map") [] [] := by
  simp [adjust_node, hD]

/-- `adjust_node` on a null value at an optional node. -/
theorem adjust_node_null_opt (f : Nat) (path : String)
    (kvs : List (String × PyValue)) (hopt : truthy (dictGet kvs "option") = true) :
    adjust_node (f + 1) path .null (.dict kvs) = .ok .null [] [] := by
  simp [adjust_node, hopt, PyValue.isNull]

/-- `adjust_node` on a null value at a non-optional node. -/
theorem adjust_node_null_req (f : Nat) (path : String)
    (kvs : List (String × PyValue)) (hopt : truthy (dictGet kvs "option") = false) :
    adjust_node (f + 1) path .null (.dict kvs)
      = .ok .null [.valueError path "value cant be null"] [] := by
  simp [adjust_node, hopt, PyValue.isNull]

/-- A flag conversion with no diagnostics returns the node unchanged. -/
theorem process_flag_ok (path : String) (D v : PyValue)
    (h : process_flag_node path D = .ok v [] []) : v = D := by
  cases D <;> simp_all [process_flag_node]

/-- An enum conversion with no diagnostics returns the node unchanged. -/
theorem process_enum_ok (path : String) (kvs : List (String × PyValue)) (D v : PyValue)
    (h : process_enum_node path D kvs = .ok v [] []) : v = D := by
  cases D <;> simp_all [process_enum_node]
  next s =>
    cases hval : pyLookup kvs "values" with
    | none => rw [hval] at h; simp at h
    | some values =>
      rw [hval] at h
      cases values <;> simp_all
      next vs => split at h <;> simp_all

/-- A failing length check always records an error. -/
theorem check_length_false_ne (what path : String) (L : Nat) (len : PyValue)
    (e w : List Diag) (h : check_length_bounds what path L len = .ok false e w) :
    e ≠ [] := by
  cases len <;> simp only [check_length_bounds] at h <;>
    iterate 6 (all_goals (try split at h))
  all_goals first
    | (obtain ⟨rfl, rfl⟩ := h; simp)
    | simp_all

/-- A passing length check records nothing. -/
theorem check_length_true_nil (what path : String) (L : Nat) (len : PyValue)
    (e w : List Diag) (h : check_length_bounds what path L len = .ok true e w) :
    e = [] ∧ w = [] := by
  cases len <;> simp only [check_length_bounds] at h <;>
    iterate 6 (all_goals (try split at h))
  all_goals first
    | (obtain ⟨rfl, rfl⟩ := h; simp)
    | simp_all

/-- A string conversion with no diagnostics returns the node unchanged. -/
theorem process_string_ok (path : String) (kvs : List (String × PyValue)) (D v : PyValue)
    (h : process_string_node path D kvs = .ok v [] []) : v = D := by
  cases D <;> simp only [process_string_node] at h <;> try simp_all
  next s =>
    cases hc : check_length_bounds "string" path s.length (dictGet kvs "length") with
    | exc x e w => rw [hc] at h; simp [PyResult.andThen] at h
    | ok passed e w =>
      rw [hc] at h
      cases passed with
      | false =>
        have hne := check_length_false_ne "string" path s.length (dictGet kvs "length") e w hc
        simp [PyResult.andThen] at h
        exact absurd h.2.1 hne
      | true =>
        obtain ⟨rfl, rfl⟩ :=
          check_length_true_nil "string" path s.length (dictGet kvs "length") _ _ hc
        simp only [PyResult.andThen] at h
        cases hpp : dictGet kvs "pattern" with
        | str p =>
          rw [hpp] at h
          by_cases hm : re_match_literal p s = true <;> simp_all [PyValue.isNull]
        | _ => rw [hpp] at h; simp_all [PyValue.isNull]

theorem run_list_items_length (adjustF : String → PyValue → PyValue → PyResult PyValue)
    (path : String) (vspec : PyValue) :
    ∀ (items : List PyValue) (idx : Nat) (vs : List PyValue) (e w : List Diag),
      run_list_items adjustF path vspec idx items = .ok vs e w →
      vs.length = items.length := by
  intro items
  induction items with
  | nil =>
    intro idx vs e w h
    simp only [run_list_items, PyResult.ok.injEq] at h
    obtain ⟨rfl, -, -⟩ := h
    rfl
  | cons item rest ih =>
    intro idx vs e w h
    simp only [run_list_items] at h
    split at h
    next v e1 w1 ha =>
      split at h
      next vs2 e2 w2 hr =>
        simp only [PyResult.ok.injEq] at h
        obtain ⟨rfl, -, -⟩ := h
        simp [ih (idx + 1) vs2 e2 w2 hr]
      next x e2 w2 hr => simp at h
    next x e1 w1 ha => simp at h

/-- Re-running the list-conversion loop on its own clean output reproduces
it, whenever the element converter has that property. -/
theorem run_list_items_idem (adjustF : String → PyValue → PyValue → PyResult PyValue)
    (path : String) (vspec : PyValue)
    (hIH : ∀ p D v, adjustF p D vspec = .ok v [] [] → adjustF p v vspec = .ok v [] []) :
    ∀ (items : List PyValue) (idx : Nat) (vs : List PyValue),
      run_list_items adjustF path vspec idx items = .ok vs [] [] →
      run_list_items adjustF path vspec idx vs = .ok vs [] [] := by
  intro items
  induction items with
  | nil =>
    intro idx vs h
    simp only [run_list_items, PyResult.ok.injEq] at h
    obtain ⟨rfl, -, -⟩ := h
    rfl
  | cons item rest ih =>
    intro idx vs h
    simp only [run_list_items] at h
    split at h
    next v e1 w1 ha =>
      split at h
      next vs2 e2 w2 hr =>
        simp only [PyResult.ok.injEq] at h
        obtain ⟨rfl, he, hw⟩ := h
        obtain ⟨rfl, rfl⟩ := List.append_eq_nil.mp he
        obtain ⟨rfl, rfl⟩ := List.append_eq_nil.mp hw
        simp only [run_list_items]
        rw [hIH _ _ _ ha, ih (idx + 1) vs2 hr]
        rfl
      next x e2 w2 hr => simp at h
    next x e1 w1 ha => simp at h

/-- A clean list conversion yields a non-null value that re-converts to
itself cleanly, whenever the element converter is idempotent on clean
outputs. -/
theorem process_list_ok_idem (adjustF : String → PyValue → PyValue → PyResult PyValue)
    (path : String) (kvs : List (String × PyValue)) (vspec : PyValue)
    (hv : pyLookup kvs "value" = some vspec)
    (hIH : ∀ p D v, adjustF p D vspec = .ok v [] [] → adjustF p v vspec = .ok v [] [])
    (D v : PyValue) (h : process_list_node adjustF path D kvs = .ok v [] []) :
    v.isNull = false ∧ process_list_node adjustF path v kvs = .ok v [] [] := by
  cases D <;> simp only [process_list_node, hv] at h <;> try simp_all
  next items =>
    cases hc : check_length_bounds "list" path items.length (dictGet kvs "length") with
    | exc x e w => rw [hc] at h; simp [PyResult.andThen] at h
    | ok passed e w =>
      rw [hc] at h
      cases passed with
      | false =>
        have hne := check_length_false_ne "list" path items.length (dictGet kvs "length") e w hc
        simp [PyResult.andThen] at h
        exact absurd h.2.1 hne
      | true =>
        obtain ⟨rfl, rfl⟩ :=
          check_length_true_nil "list" path items.length (dictGet kvs "length") _ _ hc
        simp only [PyResult.andThen] at h
        cases hr : run_list_items adjustF path vspec 0 items with
        | exc x e2 w2 => rw [hr] at h; simp at h
        | ok vs e2 w2 =>
          rw [hr] at h
          simp only [PyResult.ok.injEq, List.nil_append] at h
          obtain ⟨rfl, rfl, rfl⟩ := h
          refine ⟨rfl, ?_⟩
          simp only [process_list_node, hv]
          have hlen : vs.length = items.length :=
            run_list_items_length adjustF path vspec items 0 vs _ _ hr
          rw [hlen, hc]
          simp only [PyResult.andThen]
          rw [run_list_items_idem adjustF path vspec hIH items 0 vs hr]
          simp

/-- The map-field loop only inspects the document through lookups at the
declared keys. -/
theorem run_map_fields_congr (adjustF : String → PyValue → PyValue → PyResult PyValue)
    (path : String) :
    ∀ (fields n1 n2 : List (String × PyValue)),
      (∀ k, k ∈ fields.map Prod.fst → pyLookup n1 k = pyLookup n2 k) →
      run_map_fields adjustF path n1 fields = run_map_fields adjustF path n2 fields := by
  intro fields
  induction fields with
  | nil => intro n1 n2 _; rfl
  | cons kv rest ih =>
    obtain ⟨key, fspec⟩ := kv
    intro n1 n2 hagree
    have hrest := ih n1 n2 (fun k hk => hagree k (by simp [hk]))
    simp only [run_map_fields, hagree key (by simp), hrest]

/-- Re-running the map-field loop on its own clean output reproduces it,
whenever every field's converter has that property and the declared keys
are unique. -/
theorem run_map_fields_idem (adjustF : String → PyValue → PyValue → PyResult PyValue)
    (path : String) :
    ∀ (fields : List (String × PyValue)),
      (fields.map Prod.fst).Nodup →
      (∀ k fspec, (k, fspec) ∈ fields →
        ∀ p D v, adjustF p D fspec = .ok v [] [] → adjustF p v fspec = .ok v [] []) →
      ∀ (nkvs out : List (String × PyValue)),
        run_map_fields adjustF path nkvs fields = .ok out [] [] →
        run_map_fields adjustF path out fields = .ok out [] [] := by
  intro fields
  induction fields with
  | nil =>
    intro _ _ nkvs out h
    simp only [run_map_fields, PyResult.ok.injEq] at h
    obtain ⟨rfl, -, -⟩ := h
    rfl
  | cons kv rest ih =>
    obtain ⟨key, fspec⟩ := kv
    intro hnd hIH nkvs out h
    have hnd_cast : (key :: rest.map Prod.fst).Nodup := by simpa using hnd
    obtain ⟨hkey_notin, hnd'⟩ := List.nodup_cons.mp hnd_cast
    have hnd'' : (rest.map Prod.fst).Nodup := by simpa using hnd'
    have hIH' : ∀ k fspec', (k, fspec') ∈ rest →
        ∀ p D v, adjustF p D fspec' = .ok v [] [] → adjustF p v fspec' = .ok v [] [] :=
      fun k f hm => hIH k f (by simp [hm])
    simp only [run_map_fields] at h
    split at h
    next nv heq =>
      split at h
      next v e1 w1 ha =>
        split at h
        next out2 e2 w2 hr =>
          simp only [PyResult.ok.injEq] at h
          obtain ⟨rfl, he, hw⟩ := h
          obtain ⟨rfl, rfl⟩ := List.append_eq_nil.mp he
          obtain ⟨rfl, rfl⟩ := List.append_eq_nil.mp hw
          have hcongr : run_map_fields adjustF path ((key, v) :: out2) rest
              = run_map_fields adjustF path out2 rest := by
            apply run_map_fields_congr
            intro k hk
            exact pyLookup_cons_ne key k v out2 (fun hkk => hkey_notin (hkk ▸ hk))
          simp only [run_map_fields, pyLookup_cons_self]
          rw [hIH key fspec (by simp) _ _ _ ha]
          simp only [hcongr, ih hnd'' hIH' nkvs out2 hr]
          rfl
        next x e2 w2 hr => simp at h
      next x e1 w1 ha => simp at h
    next heq =>
      have hkeys := run_map_fields_keyset adjustF path nkvs rest out [] [] h
      have hnone : pyLookup out key = Option.none := by
        apply pyLookup_eq_none_of_not_mem
        intro hmem
        rw [hkeys] at hmem
        exact hkey_notin (List.mem_of_mem_filter hmem)
      simp only [run_map_fields, hnone]
      exact ih hnd'' hIH' nkvs out h

/-- A clean map conversion yields a non-null value that re-converts to
itself cleanly, whenever every field converter is idempotent on clean
outputs and the declared keys are unique. -/
theorem process_map_ok_idem (adjustF : String → PyValue → PyValue → PyResult PyValue)
    (path : String) (kvs fkvs : List (String × PyValue))
    (hf : pyLookup kvs "fields" = some (.dict fkvs))
    (hnd : (fkvs.map Prod.fst).Nodup)
    (hIH : ∀ k fspec, (k, fspec) ∈ fkvs →
      ∀ p D v, adjustF p D fspec = .ok v [] [] → adjustF p v fspec = .ok v [] [])
    (D v : PyValue) (h : process_map_node adjustF path D kvs = .ok v [] []) :
    v.isNull = false ∧ process_map_node adjustF path v kvs = .ok v [] [] := by
  cases D <;> simp only [process_map_node, hf] at h <;> try simp_all
  next nkvs =>
    cases hr : run_map_fields adjustF path nkvs fkvs with
    | exc x e2 w2 => rw [hr] at h; simp at h
    | ok out e2 w2 =>
      rw [hr] at h
      simp only [PyResult.ok.injEq] at h
      obtain ⟨rfl, rfl, rfl⟩ := h
      refine ⟨rfl, ?_⟩
      simp only [process_map_node, hf]
      rw [run_map_fields_idem adjustF path fkvs hnd hIH nkvs out hr]

/-- C4 (amended): schema-relative idempotence holds for schemas built from
the flag, string, enum, list and map kinds: when conversion of a document
returns with no diagnostics, converting the adjusted value returns the very
same value, again with no diagnostics. -/
theorem C4_benign_idempotence :
    ∀ (fuel : Nat) (path : String) (D S v : PyValue), BenignSpecs S →
      adjust_node fuel path D S = .ok v [] [] →
      adjust_node fuel path v S = .ok v [] [] := by
  intro fuel
  induction fuel with
  | zero =>
    intro path D S v hS h
    simp [adjust_node] at h
  | succ f ihf =>
    intro path D S v hS h
    have hdict : ∃ kvs, S = .dict kvs := by cases hS <;> exact ⟨_, rfl⟩
    obtain ⟨kvs, rfl⟩ := hdict
    by_cases hD : D.isNull = true
    · have hDn : D = .null := by cases D <;> simp_all [PyValue.isNull]
      subst hDn
      by_cases hopt : truthy (dictGet kvs "option") = true
      · have h0 := adjust_node_null_opt f path kvs hopt
        rw [h0] at h
        simp only [PyResult.ok.injEq] at h
        obtain ⟨rfl, -, -⟩ := h
        exact h0
      · have hopt' : truthy (dictGet kvs "option") = false := by simpa using hopt
        rw [adjust_node_null_req f path kvs hopt'] at h
        simp at h
    · have hD' : D.isNull = false := by simpa using hD
      rw [adjust_node_dispatch f path D kvs hD'] at h
      cases hS with
      | flag _ htype =>
        rw [htype] at h
        replace h : process_flag_node path D = .ok v [] [] := h
        have hv := process_flag_ok path D v h
        subst hv
        rw [adjust_node_dispatch f path v kvs hD', htype]
        exact h
      | string _ htype =>
        rw [htype] at h
        replace h : process_string_node path D kvs = .ok v [] [] := h
        have hv := process_string_ok path kvs D v h
        subst hv
        rw [adjust_node_dispatch f path v kvs hD', htype]
        exact h
      | enum _ htype =>
        rw [htype] at h
        replace h : process_enum_node path D kvs = .ok v [] [] := h
        have hv := process_enum_ok path kvs D v h
        subst hv
        rw [adjust_node_dispatch f path v kvs hD', htype]
        exact h
      | list _ vspec htype hval hben =>
        rw [htype] at h
        replace h : process_list_node (fun p n s => adjust_node f p n s) path D kvs
            = .ok v [] [] := h
        have hIH : ∀ p D' v',
            (fun p n s => adjust_node f p n s) p D' vspec = .ok v' [] [] →
            (fun p n s => adjust_node f p n s) p v' vspec = .ok v' [] [] :=
          fun p D' v' h' => ihf p D' vspec v' hben h'
        obtain ⟨hvnull, hgoal⟩ :=
          process_list_ok_idem (fun p n s => adjust_node f p n s) path kvs vspec
            hval hIH D v h
        rw [adjust_node_dispatch f path v kvs hvnull, htype]
        exact hgoal
      | map _ fkvs htype hfields hnd hall =>
        rw [htype] at h
        replace h : process_map_node (fun p n s => adjust_node f p n s) path D kvs
            = .ok v [] [] := h
        have hIH : ∀ k fspec, (k, fspec) ∈ fkvs → ∀ p D' v',
            (fun p n s => adjust_node f p n s) p D' fspec = .ok v' [] [] →
            (fun p n s => adjust_node f p n s) p v' fspec = .ok v' [] [] :=
          fun k fs hm p D' v' h' => ihf p D' fs v' (hall k fs hm) h'
        obtain ⟨hvnull, hgoal⟩ :=
          process_map_ok_idem (fun p n s => adjust_node f p n s) path kvs fkvs
            hfields hnd hIH D v h
        rw [adjust_node_dispatch f path v kvs hvnull, htype]
        exact hgoal

/-- C4 counterexample: converting a satisfying document yields no errors,
but converting the adjusted value a second time is not error-free — exactly
at the kinds the amended claim excludes.  A tuple's adjusted value is a
Python tuple, which the converter rejects as a non-array; a decimal's
adjusted value is `None`, rejected as null; an integer's adjusted value
truncates a fractional document value (13/2) below a strict bound it
satisfied. -/
theorem C4_counterexample_reconversion_fails :
    (adjust_node 32 "root" (.list [.bool true])
        (.dict [("type", .str "tuple"), ("values", .list [.dict [("type", .str "flag")]])])
      = .ok (.tuple [.bool true]) [] []
     ∧ adjust_node 32 "root" (.tuple [.bool true])
        (.dict [("type", .str "tuple"), ("values", .list [.dict [("type", .str "flag")]])])
      = .ok .null [.validationError "root" "was expecting a JSON array"] [])
    ∧ (adjust_node 32 "root" (.int 5) (.dict [("type", .str "decimal")])
        = .ok .null [] []
       ∧ adjust_node 32 "root" .null (.dict [("type", .str "decimal")])
        = .ok .null [.valueError "root" "value cant be null"] [])
    ∧ (adjust_node 32 "root" (.float ⟨13, 2, by decide, by decide⟩)
        (.dict [("type", .str "integer"),
                ("minimum", .dict [("value", .int 6), ("exclusive", .bool true)])])
      = .ok (.int 6) [] []
       ∧ adjust_node 32 "root" (.int 6)
        (.dict [("type", .str "integer"),
                ("minimum", .dict [("value", .int 6), ("exclusive", .bool true)])])
      = .ok .null [.validationError "root" "value must be strictly greater than X"] []) :=
  ⟨⟨rfl, rfl⟩, ⟨rfl, rfl⟩, ⟨rfl, rfl⟩⟩

/-- C4 witness: the amended idempotence theorem applied to a flag schema
and a boolean document. -/
theorem C4_benign_idempotence_witness :
    adjust_node 8 "root" (.bool true) (.dict [("type", .str "flag")])
      = .ok (.bool true) [] [] :=
  C4_benign_idempotence 8 "root" (.bool true) (.dict [("type", .str "flag")]) (.bool true)
    (BenignSpecs.flag [("type", .str "flag")] rfl) rfl
